import Mathlib

/-!
Shallow embedding of the nvoc privileged GPU control plane
(`src/nvoc/nvml_controller.py`, `src/nvoc/helper.py`, `src/nvoc/config.py`,
`src/nvoc/profiles.py`, `src/nvoc/ui/fans.py`) and proofs of the frozen
claims about it.

Conventions used throughout:
* Machine state touched through the vendor interface (pynvml) is a
  `GpuDevice` record; the controller's own running state (peak clock,
  rolling sample buffer) is a `CtrlState` record.
* Python `int` arithmetic is `Int`/`Nat`; Python floats that only ever hold
  exact decimal values (watt figures, interpolation results) are `Rat`.
  Python `int(x)` truncation toward zero is `pyTrunc`.
* Fallible operations return `Except NvmlErr` alongside the updated state.
-/

namespace Nvoc

/-- Truncation toward zero, the semantics of Python `int(x)` on a float. -/
def pyTrunc (q : Rat) : Int :=
  if 0 ≤ q then Int.floor q else Int.ceil q

/-! ## Safety limits (nvml_controller.py, class SafetyLimits) -/

namespace SafetyLimits

def MAX_CORE_CLOCK_OFFSET_MHZ : Int := 1500

def MAX_MEMORY_CLOCK_OFFSET_MHZ : Int := 4000

def MIN_FAN_SPEED_PERCENT : Int := 30

def CRITICAL_TEMP_CELSIUS : Int := 90

def WARNING_TEMP_CELSIUS : Int := 80

end SafetyLimits

/-- Error taxonomy of the controller: `thermalGuardTripped` is the plain
`NVMLError` raised on the temperature rejection path of
`set_clock_offsets` (nvml_controller.py:643-648); `permissionDenied` is
`PermissionError` raised on `NVMLError_NoPermission`; `deviceError` is any
other `NVMLError` from the vendor interface. -/
inductive NvmlErr
  | thermalGuardTripped
  | permissionDenied
  | deviceError
  deriving DecidableEq, Repr

/-- Vendor-interface-held device state: the values pynvml reads and writes.
`writesAllowed` models whether the process has the root privilege the write
entry points require (`NVMLError_NoPermission` otherwise). -/
structure GpuDevice where
  coreOffset : Int
  memOffset : Int
  temp : Int
  coreClock : Nat
  minPowerMw : Nat
  maxPowerMw : Nat
  powerLimitMw : Int
  fanSpeed : Int
  writesAllowed : Bool
  deriving DecidableEq, Repr

/-- Controller-owned running state (`self._peak_core_clock`,
`self._clock_samples`). -/
structure CtrlState where
  peakCoreClock : Nat
  clockSamples : List Nat
  deriving DecidableEq, Repr

/-- The fields of `GPUStats` the claims are about. -/
structure GPUStats where
  temperature_celsius : Int
  peak_core_clock_mhz : Nat
  avg_core_clock_mhz : Nat
  deriving DecidableEq, Repr

/-- `self._clock_samples.append(c)` followed by
`if len > 30: pop(0)` (nvml_controller.py:405-407). -/
def pushSample (samples : List Nat) (c : Nat) : List Nat :=
  let s := samples ++ [c]
  if s.length > 30 then s.tail else s

/-- `sum(samples) // len(samples) if samples else 0`
(nvml_controller.py:408). -/
def rollingAvg (samples : List Nat) : Nat :=
  if samples.isEmpty then 0 else samples.sum / samples.length

/-- `NVMLController.get_gpu_stats`, restricted to the fields the claims
mention: reads the temperature, updates the peak clock
(nvml_controller.py:401-402) and the rolling sample buffer
(nvml_controller.py:404-408), and reports the average.  It performs no
vendor-interface write, so the device is returned unchanged. -/
def get_gpu_stats (dev : GpuDevice) (cs : CtrlState) : GPUStats × CtrlState :=
  let peak := max cs.peakCoreClock dev.coreClock
  let samples := pushSample cs.clockSamples dev.coreClock
  ({ temperature_celsius := dev.temp
     peak_core_clock_mhz := peak
     avg_core_clock_mhz := rollingAvg samples },
   { peakCoreClock := peak, clockSamples := samples })

/-- `ClockOffsets` dataclass. -/
structure ClockOffsets where
  core_offset_mhz : Int
  memory_offset_mhz : Int
  deriving DecidableEq, Repr

/-- `NVMLController.get_clock_offsets` (nvml_controller.py:556-587). -/
def get_clock_offsets (dev : GpuDevice) : ClockOffsets :=
  { core_offset_mhz := dev.coreOffset, memory_offset_mhz := dev.memOffset }

/-- `NVMLController.set_clock_offsets` (nvml_controller.py:589-669):
default unspecified components from `get_clock_offsets`, clamp both into
the safety limits, then read fresh stats and reject outright when the
temperature is at or above critical, before any vendor write; otherwise
write both offsets and return the clamped pair. -/
def set_clock_offsets (dev : GpuDevice) (cs : CtrlState)
    (core? mem? : Option Int) :
    Except NvmlErr (Int × Int) × GpuDevice × CtrlState :=
  let current := get_clock_offsets dev
  let core := core?.getD current.core_offset_mhz
  let mem := mem?.getD current.memory_offset_mhz
  let safeCore := max (-SafetyLimits.MAX_CORE_CLOCK_OFFSET_MHZ)
    (min core SafetyLimits.MAX_CORE_CLOCK_OFFSET_MHZ)
  let safeMem := max (-SafetyLimits.MAX_MEMORY_CLOCK_OFFSET_MHZ)
    (min mem SafetyLimits.MAX_MEMORY_CLOCK_OFFSET_MHZ)
  let res := get_gpu_stats dev cs
  if res.1.temperature_celsius ≥ SafetyLimits.CRITICAL_TEMP_CELSIUS then
    (Except.error NvmlErr.thermalGuardTripped, dev, res.2)
  else if dev.writesAllowed then
    (Except.ok (safeCore, safeMem),
     { dev with coreOffset := safeCore, memOffset := safeMem }, res.2)
  else
    (Except.error NvmlErr.permissionDenied, dev, res.2)

/-- `NVMLController.set_fan_speed` (nvml_controller.py:710-776): read
fresh stats; at or above the critical temperature force the request to
100, at or above the warning temperature raise it to at least 70; then
clamp into `[MIN_FAN_SPEED_PERCENT, 100]`, command the fan and return the
applied value. -/
def set_fan_speed (dev : GpuDevice) (cs : CtrlState) (speed_percent : Int) :
    Except NvmlErr Int × GpuDevice × CtrlState :=
  let res := get_gpu_stats dev cs
  let t := res.1.temperature_celsius
  let escalated :=
    if t ≥ SafetyLimits.CRITICAL_TEMP_CELSIUS then 100
    else if t ≥ SafetyLimits.WARNING_TEMP_CELSIUS then max speed_percent 70
    else speed_percent
  let safe := max SafetyLimits.MIN_FAN_SPEED_PERCENT (min 100 escalated)
  if dev.writesAllowed then
    (Except.ok safe, { dev with fanSpeed := safe }, res.2)
  else
    (Except.error NvmlErr.permissionDenied, dev, res.2)

/-- Feed a sequence of core-clock readings through successive
`get_gpu_stats` calls, starting from the given controller state. -/
def feedStats (dev : GpuDevice) (clocks : List Nat) (cs : CtrlState) :
    CtrlState :=
  clocks.foldl (fun s c => (get_gpu_stats { dev with coreClock := c } s).2) cs

/-! ## Power limits (nvml_controller.py / helper.py) -/

/-- `PowerLimits` dataclass; milliwatt readings divided by 1000.0. -/
structure PowerLimits where
  current_watts : Rat
  min_watts : Rat
  max_watts : Rat
  deriving DecidableEq, Repr

/-- `NVMLController.get_power_limits` (nvml_controller.py:479-508). -/
def get_power_limits (dev : GpuDevice) : PowerLimits :=
  { current_watts := (dev.powerLimitMw : Rat) / 1000
    min_watts := (dev.minPowerMw : Rat) / 1000
    max_watts := (dev.maxPowerMw : Rat) / 1000 }

/-- `NVMLController.set_power_limit` (nvml_controller.py:510-550):
re-read the constraints, clamp the requested watts into `[min, max]`,
convert to milliwatts with `int(clamped * 1000)`, and write.  Returns
`Unit` - the Python method returns `None`. -/
def set_power_limit (dev : GpuDevice) (watts : Rat) :
    Except NvmlErr Unit × GpuDevice :=
  let limits := get_power_limits dev
  let clamped := max limits.min_watts (min watts limits.max_watts)
  let milliwatts := pyTrunc (clamped * 1000)
  if dev.writesAllowed then
    (Except.ok (), { dev with powerLimitMw := milliwatts })
  else
    (Except.error NvmlErr.permissionDenied, dev)

/-- Success payload of the elevated `set-power-limit` command. -/
structure SetPowerLimitResponse where
  success : Bool
  power_limit : Rat
  deriving DecidableEq, Repr

/-- `cmd_set_power_limit` (helper.py:111-115): run the controller write,
then emit `{"success": true, "power_limit": watts}` - the field echoes the
raw requested watts, not the value the controller applied. -/
def cmd_set_power_limit (dev : GpuDevice) (watts : Rat) :
    Except NvmlErr SetPowerLimitResponse × GpuDevice :=
  let res := set_power_limit dev watts
  match res.1 with
  | Except.ok _ =>
      (Except.ok { success := true, power_limit := watts }, res.2)
  | Except.error e => (Except.error e, res.2)

/-! ## Fan-curve daemon (ui/fans.py, class FanCurveDaemon) -/

/-- `FanCurveDaemon._apply_ramp_limit` (ui/fans.py:171-178).  The Python
line `current = self.state.commanded_speed or target` makes any falsy
previous commanded speed - `None` or `0` - fall back to the target, so the
step limit is silently skipped in those cases. -/
def applyRampLimit (commandedSpeed : Option Int) (target maxStep : Int) :
    Int :=
  let current :=
    match commandedSpeed with
    | none => target
    | some c => if c = 0 then target else c
  if target > current then min target (current + maxStep)
  else if target < current then max target (current - maxStep)
  else target

/-- Linear interpolation between two control points, over the rationals:
`s1 + (s2 - s1) * (temp - t1) / (t2 - t1)` (ui/fans.py:154). -/
def lerp (p1 p2 : Int × Int) (temp : Int) : Rat :=
  (p1.2 : Rat) + ((p2.2 : Rat) - (p1.2 : Rat)) *
    ((temp : Rat) - (p1.1 : Rat)) / ((p2.1 : Rat) - (p1.1 : Rat))

/-- The bracket-scanning loop of `_update_fan_from_curve`
(ui/fans.py:148-155): starting from the first point's percent, walk the
adjacent pairs of the sorted point list and take the first pair that
brackets `temp`. -/
def interpLoop (temp : Int) : List (Int × Int) → Rat → Rat
  | p1 :: p2 :: rest, acc =>
      if p1.1 ≤ temp ∧ temp ≤ p2.1 then lerp p1 p2 temp
      else interpLoop temp (p2 :: rest) acc
  | _, acc => acc

/-- The interpolation step of `_update_fan_from_curve`
(ui/fans.py:142-155), on the curve already materialised as its
temperature-sorted point list: below the lowest point use its percent,
above the highest use its percent, otherwise scan for a bracketing pair. -/
def interpolate (pts : List (Int × Int)) (temp : Int) : Rat :=
  match pts with
  | [] => 0
  | p0 :: rest =>
      if temp ≤ p0.1 then (p0.2 : Rat)
      else
        let last := (p0 :: rest).getLast (List.cons_ne_nil p0 rest)
        if temp ≥ last.1 then (last.2 : Rat)
        else interpLoop temp (p0 :: rest) (p0.2 : Rat)

/-- The daemon state the loop keeps across iterations:
`self._last_curve_temp`, `self._last_target_speed` (absent attributes
until first set, hence `Option`) and `self.state.commanded_speed`. -/
structure DaemonState where
  lastCurveTemp : Option Int
  lastTargetSpeed : Option Int
  commandedSpeed : Option Int
  deriving DecidableEq, Repr

/-- One iteration of `FanCurveDaemon._update_fan_from_curve`
(ui/fans.py:106-166) on a non-empty curve, given the fresh temperature
reading: hysteresis suppression reuses the previous target (leaving
`_last_curve_temp` and `_last_target_speed` untouched), otherwise the
target is recomputed by interpolation, floored at the configured minimum
with Python `int` truncation, and `_last_curve_temp` /
`_last_target_speed` are updated; either way the commanded speed is the
ramp-limited target. -/
def updateFanFromCurve (minFan hysteresis rampStep : Int)
    (pts : List (Int × Int)) (temp : Int) (st : DaemonState) : DaemonState :=
  if pts.isEmpty then st
  else
    let suppress :=
      match st.lastCurveTemp, st.lastTargetSpeed with
      | some last, some _ => decide (|temp - last| < hysteresis)
      | _, _ => false
    if suppress then
      let prevTarget := st.lastTargetSpeed.getD 0
      let commanded := applyRampLimit st.commandedSpeed prevTarget rampStep
      { st with commandedSpeed := some commanded }
    else
      let target := max minFan (pyTrunc (interpolate pts temp))
      let commanded := applyRampLimit st.commandedSpeed target rampStep
      { lastCurveTemp := some temp
        lastTargetSpeed := some target
        commandedSpeed := some commanded }

/-! ## Crash marker and boot-time apply (config.py / helper.py) -/

/-- A touch or unlink of the `.applying` crash-marker file
(`set_applying_flag` / `clear_applying_flag`, config.py:164-181). -/
inductive FlagEvent
  | setFlag
  | clearFlag
  deriving DecidableEq, Repr

/-- Marker existence after replaying a trace of flag operations. -/
def markerAfter (marker0 : Bool) (events : List FlagEvent) : Bool :=
  events.foldl
    (fun _ e => match e with | FlagEvent.setFlag => true
                             | FlagEvent.clearFlag => false)
    marker0

/-- `check_crash_recovery` (config.py:184-198): report whether the marker
file exists, unlinking it when it does.  Returns the detection result and
the marker state afterwards. -/
def check_crash_recovery (marker : Bool) : Bool × Bool :=
  if marker then (true, false) else (false, marker)

/-- Outcome of the `apply-boot-profile` helper command. -/
inductive BootApplyResult
  | skippedCrashRecovery
  | skippedNoBootProfile
  | errorProfileNotFound
  | applied
  | errorException
  deriving DecidableEq, Repr

/-- The `apply-boot-profile` branch of `main` (helper.py:255-295) as a
function of the marker state, the configured boot-profile name (`none`
models the falsy empty string), whether the named profile exists in the
store, and whether the apply itself raises.  Alongside the outcome it
returns the trace of crash-marker operations performed, in order. -/
def applyBootProfile (marker0 : Bool) (bootProfileName : Option String)
    (profileFound : Bool) (applyRaises : Bool) :
    BootApplyResult × List FlagEvent :=
  let crash := check_crash_recovery marker0
  if crash.1 then
    (BootApplyResult.skippedCrashRecovery, [FlagEvent.clearFlag])
  else
    match bootProfileName with
    | none => (BootApplyResult.skippedNoBootProfile, [])
    | some _ =>
        if !profileFound then
          (BootApplyResult.errorProfileNotFound,
           [FlagEvent.setFlag, FlagEvent.clearFlag])
        else if applyRaises then
          (BootApplyResult.errorException,
           [FlagEvent.setFlag, FlagEvent.clearFlag])
        else
          (BootApplyResult.applied,
           [FlagEvent.setFlag, FlagEvent.clearFlag])

/-! ## Profile store (profiles.py) -/

/-- A key of a fan-curve mapping as Python sees it: the user-built curve
has `int` keys, but a curve read back from JSON has string keys, because
`json.dump` stringifies object keys. -/
inductive CurveKey
  | ofInt (n : Int)
  | ofStr (s : String)
  deriving DecidableEq, Repr

/-- How `json.dump` renders a dict key: ints are stringified, strings kept. -/
def CurveKey.keyString : CurveKey → String
  | CurveKey.ofInt n => toString n
  | CurveKey.ofStr s => s

/-- The `Profile` dataclass (profiles.py:22-59).  Timestamps are modelled
as naturals, `0` standing for the falsy empty string the dataclass
defaults to. -/
structure Profile where
  name : String
  power_limit_watts : Option Rat
  core_clock_offset_mhz : Option Int
  memory_clock_offset_mhz : Option Int
  max_clock_mhz : Option Int
  fan_mode : String
  fan_speed_percent : Option Int
  fan_curve : Option (List (CurveKey × Int))
  apply_on_boot : Bool
  created_at : Nat
  updated_at : Nat
  description : String
  deriving DecidableEq, Repr

/-- The on-disk JSON record a profile save writes: `asdict` emits every
field, and the fan-curve keys are strings after `json.dump`. -/
structure StoredProfile where
  name : String
  power_limit_watts : Option Rat
  core_clock_offset_mhz : Option Int
  memory_clock_offset_mhz : Option Int
  max_clock_mhz : Option Int
  fan_mode : String
  fan_speed_percent : Option Int
  fan_curve : Option (List (String × Int))
  apply_on_boot : Bool
  created_at : Nat
  updated_at : Nat
  description : String
  deriving DecidableEq, Repr

/-- `Profile.to_dict` composed with `json.dump` key stringification. -/
def Profile.to_dict (p : Profile) : StoredProfile :=
  { name := p.name
    power_limit_watts := p.power_limit_watts
    core_clock_offset_mhz := p.core_clock_offset_mhz
    memory_clock_offset_mhz := p.memory_clock_offset_mhz
    max_clock_mhz := p.max_clock_mhz
    fan_mode := p.fan_mode
    fan_speed_percent := p.fan_speed_percent
    fan_curve := p.fan_curve.map (List.map fun kv => (kv.1.keyString, kv.2))
    apply_on_boot := p.apply_on_boot
    created_at := p.created_at
    updated_at := p.updated_at
    description := p.description }

/-- `Profile.from_dict` (profiles.py:42-59) on a full record: every field
is present so the `data.get` defaults never fire; the fan-curve keys come
back as the strings JSON stored. -/
def Profile.from_dict (d : StoredProfile) : Profile :=
  { name := d.name
    power_limit_watts := d.power_limit_watts
    core_clock_offset_mhz := d.core_clock_offset_mhz
    memory_clock_offset_mhz := d.memory_clock_offset_mhz
    max_clock_mhz := d.max_clock_mhz
    fan_mode := d.fan_mode
    fan_speed_percent := d.fan_speed_percent
    fan_curve := d.fan_curve.map (List.map fun kv => (CurveKey.ofStr kv.1, kv.2))
    apply_on_boot := d.apply_on_boot
    created_at := d.created_at
    updated_at := d.updated_at
    description := d.description }

/-- `ProfileManager._get_profile_path` name sanitisation (profiles.py:83-88):
keep alphanumerics and `._- `, strip, lowercase, spaces to underscores
(ASCII approximation of Python's Unicode-aware `isalnum`). -/
def sanitizeName (name : String) : String :=
  let kept := name.toList.filter
    (fun c => c.isAlphanum || c = '.' || c = '_' || c = '-' || c = ' ')
  let stripped := (String.mk kept).trim
  String.mk (stripped.toList.map
    (fun c => if c = ' ' then '_' else c.toLower))

/-- The profiles directory: sanitised name to stored record, latest write
first. -/
def ProfileStore := List (String × StoredProfile)

/-- `ProfileManager.save_profile` (profiles.py:131-156): stamp
`created_at` only when it is absent, always refresh `updated_at`, then
serialise.  Returns the mutated in-memory profile and the record written. -/
def save_profile (p : Profile) (now : Nat) : Profile × StoredProfile :=
  let stamped :=
    { p with
      created_at := if p.created_at = 0 then now else p.created_at
      updated_at := now }
  (stamped, stamped.to_dict)

/-- A save as seen by the store: write the record under the sanitised
profile name. -/
def storeSave (store : ProfileStore) (p : Profile) (now : Nat) :
    ProfileStore :=
  (sanitizeName p.name, (save_profile p now).2) :: store

/-- `ProfileManager.load_profile` (profiles.py:107-129): look the file up
under the sanitised name and parse it, `none` when absent. -/
def storeLoad (store : ProfileStore) (name : String) : Option Profile :=
  (store.find? (fun e => e.1 == sanitizeName name)).map
    (fun e => Profile.from_dict e.2)

/-! ## Concrete fixtures used by the witnesses -/

/-- A device at exactly the critical temperature, holding offsets
`(10, 20)`. -/
def devHot : GpuDevice :=
  { coreOffset := 10, memOffset := 20, temp := 90, coreClock := 1000
    minPowerMw := 100000, maxPowerMw := 450000, powerLimitMw := 300000
    fanSpeed := 50, writesAllowed := true }

/-- A cool device (40 degrees), holding offsets `(10, 20)`. -/
def devCool : GpuDevice :=
  { coreOffset := 10, memOffset := 20, temp := 40, coreClock := 1000
    minPowerMw := 100000, maxPowerMw := 450000, powerLimitMw := 300000
    fanSpeed := 50, writesAllowed := true }

/-- The three-point fan curve of the spec's interpolation example. -/
def exampleCurve : List (Int × Int) := [(30, 30), (70, 65), (90, 100)]

end Nvoc

namespace Nvoc

/-! ## C1: thermal guard on clock-offset writes -/

/-- C1.  For every requested core/memory offset pair, when the temperature
read by the fresh `get_gpu_stats` call made by `set_clock_offsets` is at
or above `CRITICAL_TEMP_CELSIUS`, the call fails with the thermal-guard
error, leaves the vendor-held device state entirely unchanged (no write),
and a subsequent `get_clock_offsets` returns the same offsets as before
the call; the rejection is a hard failure, never a clamp. -/
theorem set_clock_offsets_thermal_guard (dev : GpuDevice) (cs : CtrlState)
    (core? mem? : Option Int)
    (h : (get_gpu_stats dev cs).1.temperature_celsius ≥
      SafetyLimits.CRITICAL_TEMP_CELSIUS) :
    (set_clock_offsets dev cs core? mem?).1 =
      Except.error NvmlErr.thermalGuardTripped ∧
    (set_clock_offsets dev cs core? mem?).2.1 = dev ∧
    get_clock_offsets (set_clock_offsets dev cs core? mem?).2.1 =
      get_clock_offsets dev := by
  simp [set_clock_offsets, if_pos h]

/-- Witness for C1: at the concrete device sitting exactly at the critical
temperature, the call rejects and the offsets read back unchanged. -/
theorem set_clock_offsets_thermal_guard_witness :
    (set_clock_offsets devHot ⟨0, []⟩ (some 500) (some (-100))).1 =
      Except.error NvmlErr.thermalGuardTripped ∧
    get_clock_offsets (set_clock_offsets devHot ⟨0, []⟩
      (some 500) (some (-100))).2.1 = get_clock_offsets devHot := by
  have h := set_clock_offsets_thermal_guard devHot ⟨0, []⟩
    (some 500) (some (-100)) (by decide)
  exact ⟨h.1, h.2.2⟩

/-! ## C2: clamping semantics of clock-offset writes -/

/-- C2.  Below the critical temperature (and with the write privilege the
code otherwise turns into a permission error), `set_clock_offsets` returns
exactly the requested offsets clamped into
`[-MAX_CORE_CLOCK_OFFSET_MHZ, MAX_CORE_CLOCK_OFFSET_MHZ]` and
`[-MAX_MEMORY_CLOCK_OFFSET_MHZ, MAX_MEMORY_CLOCK_OFFSET_MHZ]`
respectively, an unspecified component defaulting to the value currently
read from `get_clock_offsets` - not to zero - and writes those clamped
values to the device. -/
theorem set_clock_offsets_clamps (dev : GpuDevice) (cs : CtrlState)
    (core? mem? : Option Int)
    (ht : (get_gpu_stats dev cs).1.temperature_celsius <
      SafetyLimits.CRITICAL_TEMP_CELSIUS)
    (hw : dev.writesAllowed = true) :
    (set_clock_offsets dev cs core? mem?).1 =
      Except.ok
        (max (-SafetyLimits.MAX_CORE_CLOCK_OFFSET_MHZ)
          (min (core?.getD (get_clock_offsets dev).core_offset_mhz)
            SafetyLimits.MAX_CORE_CLOCK_OFFSET_MHZ),
         max (-SafetyLimits.MAX_MEMORY_CLOCK_OFFSET_MHZ)
          (min (mem?.getD (get_clock_offsets dev).memory_offset_mhz)
            SafetyLimits.MAX_MEMORY_CLOCK_OFFSET_MHZ)) ∧
    (set_clock_offsets dev cs core? mem?).2.1.coreOffset =
      max (-SafetyLimits.MAX_CORE_CLOCK_OFFSET_MHZ)
        (min (core?.getD (get_clock_offsets dev).core_offset_mhz)
          SafetyLimits.MAX_CORE_CLOCK_OFFSET_MHZ) ∧
    (set_clock_offsets dev cs core? mem?).2.1.memOffset =
      max (-SafetyLimits.MAX_MEMORY_CLOCK_OFFSET_MHZ)
        (min (mem?.getD (get_clock_offsets dev).memory_offset_mhz)
          SafetyLimits.MAX_MEMORY_CLOCK_OFFSET_MHZ) := by
  simp [set_clock_offsets, if_neg (not_le.mpr ht), hw]

/-- Witness for C2: on the cool device holding offsets `(10, 20)`, a
request of `(2000, none)` comes back as `(1500, 20)` - core clamped to the
safety limit, memory defaulted to the current read, not zero. -/
theorem set_clock_offsets_clamps_witness :
    (set_clock_offsets devCool ⟨0, []⟩ (some 2000) none).1 =
      Except.ok (1500, 20) := by
  have h := set_clock_offsets_clamps devCool ⟨0, []⟩ (some 2000) none
    (by decide) (by decide)
  calc (set_clock_offsets devCool ⟨0, []⟩ (some 2000) none).1
      = Except.ok
          (max (-SafetyLimits.MAX_CORE_CLOCK_OFFSET_MHZ)
            (min ((some 2000).getD (get_clock_offsets devCool).core_offset_mhz)
              SafetyLimits.MAX_CORE_CLOCK_OFFSET_MHZ),
           max (-SafetyLimits.MAX_MEMORY_CLOCK_OFFSET_MHZ)
            (min ((none : Option Int).getD
                (get_clock_offsets devCool).memory_offset_mhz)
              SafetyLimits.MAX_MEMORY_CLOCK_OFFSET_MHZ)) := h.1
    _ = Except.ok (1500, 20) := by
          have hp :
              (max (-SafetyLimits.MAX_CORE_CLOCK_OFFSET_MHZ)
                (min ((some 2000).getD
                    (get_clock_offsets devCool).core_offset_mhz)
                  SafetyLimits.MAX_CORE_CLOCK_OFFSET_MHZ),
               max (-SafetyLimits.MAX_MEMORY_CLOCK_OFFSET_MHZ)
                (min ((none : Option Int).getD
                    (get_clock_offsets devCool).memory_offset_mhz)
                  SafetyLimits.MAX_MEMORY_CLOCK_OFFSET_MHZ)) =
              ((1500 : Int), (20 : Int)) := by decide
          rw [hp]

/-! ## C3: three-tier fan-speed escalation -/

/-- C3.  With the write privilege, `set_fan_speed` succeeds with an
applied value `v` that is written to the device and returned, and `v`
obeys the escalation tiers read off the fresh stats call: exactly 100 at
or above the critical temperature regardless of the request, at least 70
in the warning band, and at least `MIN_FAN_SPEED_PERCENT` below it. -/
theorem set_fan_speed_escalation (dev : GpuDevice) (cs : CtrlState)
    (p : Int) (hw : dev.writesAllowed = true) :
    ∃ v : Int,
      (set_fan_speed dev cs p).1 = Except.ok v ∧
      (set_fan_speed dev cs p).2.1.fanSpeed = v ∧
      ((get_gpu_stats dev cs).1.temperature_celsius ≥
          SafetyLimits.CRITICAL_TEMP_CELSIUS → v = 100) ∧
      (SafetyLimits.WARNING_TEMP_CELSIUS ≤
          (get_gpu_stats dev cs).1.temperature_celsius ∧
        (get_gpu_stats dev cs).1.temperature_celsius <
          SafetyLimits.CRITICAL_TEMP_CELSIUS → 70 ≤ v) ∧
      ((get_gpu_stats dev cs).1.temperature_celsius <
          SafetyLimits.WARNING_TEMP_CELSIUS →
        SafetyLimits.MIN_FAN_SPEED_PERCENT ≤ v) := by
  have hgs : (get_gpu_stats dev cs).1.temperature_celsius = dev.temp := rfl
  refine ⟨max SafetyLimits.MIN_FAN_SPEED_PERCENT (min 100
      (if dev.temp ≥ SafetyLimits.CRITICAL_TEMP_CELSIUS then 100
       else if dev.temp ≥ SafetyLimits.WARNING_TEMP_CELSIUS then max p 70
       else p)), ?_, ?_, ?_, ?_, ?_⟩
  · simp [set_fan_speed, hw, hgs]
  · simp [set_fan_speed, hw, hgs]
  · rw [hgs]
    intro hc
    rw [if_pos hc]
    simp only [SafetyLimits.MIN_FAN_SPEED_PERCENT]
    omega
  · rw [hgs]
    intro hwarn
    rw [if_neg (not_le.mpr hwarn.2), if_pos hwarn.1]
    simp only [SafetyLimits.MIN_FAN_SPEED_PERCENT]
    omega
  · rw [hgs]
    intro hcool
    simp only [SafetyLimits.MIN_FAN_SPEED_PERCENT,
      SafetyLimits.CRITICAL_TEMP_CELSIUS,
      SafetyLimits.WARNING_TEMP_CELSIUS] at *
    rw [if_neg (by omega), if_neg (by omega)]
    omega

/-- Witness for C3: on the device sitting at the critical temperature a
request of 10 percent is applied as exactly 100. -/
theorem set_fan_speed_escalation_witness :
    (set_fan_speed devHot ⟨0, []⟩ 10).1 = Except.ok 100 := by
  obtain ⟨v, hok, _, hcrit, _, _⟩ :=
    set_fan_speed_escalation devHot ⟨0, []⟩ 10 (by decide)
  rw [hok, hcrit (by decide)]

/-! ## C5: power-limit clamping and what the elevated command reports -/

/-- Counterexample for C5 as stated.  On the device with hardware
constraints `[100 W, 450 W]`, requesting 10000 W succeeds: the device is
written the clamped 450 W (450000 mW, so the post-clamp power limit
actually applied is 450 W), yet the success response's `power_limit` field
is the raw requested 10000 - not the post-clamp value. -/
theorem cmd_set_power_limit_echoes_request_counterexample :
    (cmd_set_power_limit devCool 10000).1.toOption =
      some { success := true, power_limit := 10000 } ∧
    (cmd_set_power_limit devCool 10000).2.powerLimitMw = 450000 ∧
    (get_power_limits (cmd_set_power_limit devCool 10000).2).current_watts
      = 450 ∧
    (10000 : Rat) ≠ 450 := by
  have hmw : (cmd_set_power_limit devCool 10000).2.powerLimitMw = 450000 := by
    simp only [cmd_set_power_limit, set_power_limit, get_power_limits,
      devCool, pyTrunc]
    norm_num
  refine ⟨?_, hmw, ?_, by norm_num⟩
  · simp [cmd_set_power_limit, set_power_limit, devCool, Except.toOption]
  · simp only [get_power_limits, hmw]
    norm_num

/-- C5 as amended.  For every power-limit write with the write privilege,
the requested watts are silently clamped into the hardware-reported
`[min, max]` range (no error) and the clamped value is what is written to
the device; but the elevated `set-power-limit` success response reports
the raw requested watts, not the post-clamp value applied. -/
theorem cmd_set_power_limit_clamps_and_echoes (dev : GpuDevice)
    (watts : Rat) (hw : dev.writesAllowed = true) :
    (cmd_set_power_limit dev watts).1 =
      Except.ok { success := true, power_limit := watts } ∧
    (cmd_set_power_limit dev watts).2.powerLimitMw =
      pyTrunc (max (get_power_limits dev).min_watts
        (min watts (get_power_limits dev).max_watts) * 1000) := by
  simp [cmd_set_power_limit, set_power_limit, hw]

/-- Witness for the amended C5: the out-of-range 10000 W request lands on
the device as the clamped 450000 mW. -/
theorem cmd_set_power_limit_clamps_and_echoes_witness :
    (cmd_set_power_limit devCool 10000).2.powerLimitMw = 450000 := by
  have h := cmd_set_power_limit_clamps_and_echoes devCool 10000 (by decide)
  rw [h.2]
  simp only [get_power_limits, devCool, pyTrunc]
  norm_num

/-! ## C7: fan-speed ramp limiting -/

/-- Counterexample for C7 as stated.  `_apply_ramp_limit` computes
`current = commanded_speed or target`, so a previously commanded speed of
0 is falsy and the step limit is skipped: with previous commanded 0,
target 70 and step 5 the cycle commands 70, where the claim's formula
`min(t, c + step)` demands 5. -/
theorem applyRampLimit_zero_counterexample :
    applyRampLimit (some 0) 70 5 = 70 ∧
    applyRampLimit (some 0) 70 5 ≠ min 70 (0 + 5) := by
  decide

/-- C7 as amended.  For every nonzero previously commanded speed `c`, the
ramp limiter moves from `c` toward the target by at most the step:
`min(t, c + step)` when `t > c`, `max(t, c - step)` when `t < c`, `c`
itself when they agree, so the commanded speed differs from `c` by at most
the (nonnegative) step; when the previous commanded speed is absent
(`None`) or 0, both falsy in Python, the target is applied directly
without ramp limiting. -/
theorem applyRampLimit_steps (c t step : Int) (hc : c ≠ 0) :
    (t > c → applyRampLimit (some c) t step = min t (c + step)) ∧
    (t < c → applyRampLimit (some c) t step = max t (c - step)) ∧
    (t = c → applyRampLimit (some c) t step = c) ∧
    (0 ≤ step → |applyRampLimit (some c) t step - c| ≤ step) ∧
    applyRampLimit none t step = t ∧
    applyRampLimit (some 0) t step = t := by
  refine ⟨?_, ?_, ?_, ?_, by simp [applyRampLimit], by simp [applyRampLimit]⟩
  · intro h
    simp only [applyRampLimit, if_neg hc]
    rw [if_pos h]
  · intro h
    simp only [applyRampLimit, if_neg hc]
    rw [if_neg (by omega), if_pos h]
  · intro h
    simp only [applyRampLimit, if_neg hc]
    rw [if_neg (by omega), if_neg (by omega)]
    exact h
  · intro h
    rw [abs_le]
    simp only [applyRampLimit, if_neg hc]
    split_ifs <;> constructor <;> simp [le_max_iff, min_le_iff] <;> omega

/-- Witness for the amended C7: with previous commanded 40, target 70 and
step 5, one cycle commands 45, not 70. -/
theorem applyRampLimit_steps_witness :
    applyRampLimit (some 40) 70 5 = 45 := by
  have h := (applyRampLimit_steps 40 70 5 (by decide)).1 (by decide)
  rw [h]
  decide

/-! ## C4: boot-time apply and the crash marker -/

/-- C4.  For the boot-time apply command: a pre-existing crash marker
makes the result `skipped/crash_recovery` with the marker cleared and
never set again; an unconfigured boot-profile name makes the result
`skipped/no_boot_profile` with no marker activity; in every other case the
trace is exactly a marker set followed by a marker clear bracketing the
orchestration (success, profile-not-found, or exception during apply),
and on every path the marker does not survive the call. -/
theorem applyBootProfile_crash_safety (m0 : Bool) (name : Option String)
    (found raises : Bool) :
    (m0 = true → applyBootProfile m0 name found raises =
      (BootApplyResult.skippedCrashRecovery, [FlagEvent.clearFlag])) ∧
    (m0 = false → name = none → applyBootProfile m0 name found raises =
      (BootApplyResult.skippedNoBootProfile, [])) ∧
    (∀ s, m0 = false → name = some s →
      (applyBootProfile m0 name found raises).2 =
        [FlagEvent.setFlag, FlagEvent.clearFlag] ∧
      ((applyBootProfile m0 name found raises).1 =
          BootApplyResult.errorProfileNotFound ∨
        (applyBootProfile m0 name found raises).1 =
          BootApplyResult.errorException ∨
        (applyBootProfile m0 name found raises).1 =
          BootApplyResult.applied)) ∧
    markerAfter m0 (applyBootProfile m0 name found raises).2 = false := by
  cases m0 <;> cases name <;> cases found <;> cases raises <;>
    simp [applyBootProfile, check_crash_recovery, markerAfter]

/-! ## C9: rolling-average core clock -/

/-- Appending one sample and evicting the oldest when over 30 is dropping
down to the last 30 of the extended buffer. -/
theorem pushSample_eq_drop (acc : List Nat) (c : Nat)
    (h : acc.length ≤ 30) :
    pushSample acc c = (acc ++ [c]).drop (acc.length + 1 - 30) := by
  simp only [pushSample, List.length_append, List.length_singleton]
  split_ifs with hgt
  · have h1 : acc.length + 1 - 30 = 1 := by omega
    rw [h1, ← List.drop_one]
  · have h0 : acc.length + 1 - 30 = 0 := by omega
    rw [h0, List.drop_zero]

/-- The buffer never exceeds 30 samples. -/
theorem pushSample_length (acc : List Nat) (c : Nat)
    (h : acc.length ≤ 30) :
    (pushSample acc c).length = min (acc.length + 1) 30 := by
  simp only [pushSample, List.length_append, List.length_singleton]
  split_ifs with hgt
  · simp only [List.length_tail, List.length_append, List.length_singleton]
    omega
  · simp only [List.length_append, List.length_singleton]
    omega

/-- Folding `pushSample` over a sample stream keeps exactly the last 30
elements of buffer-plus-stream, in arrival order. -/
theorem foldl_pushSample_eq_drop (clocks : List Nat) :
    ∀ acc : List Nat, acc.length ≤ 30 →
      clocks.foldl pushSample acc =
        (acc ++ clocks).drop (acc.length + clocks.length - 30) := by
  induction clocks with
  | nil =>
      intro acc h
      have h0 : acc.length - 30 = 0 := Nat.sub_eq_zero_of_le h
      simp only [List.foldl_nil, List.append_nil, List.length_nil,
        Nat.add_zero, h0, List.drop_zero]
  | cons c l ih =>
      intro acc h
      have hlen : (pushSample acc c).length = min (acc.length + 1) 30 :=
        pushSample_length acc c h
      rw [List.foldl_cons, ih _ (by omega), pushSample_eq_drop acc c h]
      have hk : acc.length + 1 - 30 ≤ (acc ++ [c]).length := by
        simp only [List.length_append, List.length_singleton]
        omega
      rw [← List.drop_append_of_le_length hk, List.drop_drop]
      have hassoc : acc ++ [c] ++ l = acc ++ c :: l := by simp
      rw [hassoc]
      congr 1
      simp only [List.length_drop, List.length_append,
        List.length_singleton, List.length_cons, List.length_nil]
      omega

/-- The rolling buffer a run of `get_gpu_stats` calls accumulates is the
`pushSample` fold of the fed core-clock readings. -/
theorem feedStats_clockSamples (dev : GpuDevice) (clocks : List Nat) :
    ∀ cs : CtrlState,
      (feedStats dev clocks cs).clockSamples =
        clocks.foldl pushSample cs.clockSamples := by
  induction clocks with
  | nil => intro cs; rfl
  | cons c l ih =>
      intro cs
      rw [feedStats, List.foldl_cons, List.foldl_cons]
      exact ih _

set_option maxRecDepth 100000 in
/-- C9.  The rolling-average core clock reported by `get_gpu_stats` is the
integer mean of the buffered samples, the buffer holds exactly the last 30
fed core-clock readings in arrival order (oldest evicted first), the mean
of an empty buffer is 0, and on the spec's concrete streams: 35 samples of
100 average to 100, and 29 zeros followed by one 300 average to 10. -/
theorem get_gpu_stats_rolling_average (dev : GpuDevice)
    (clocks : List Nat) (cs : CtrlState) :
    (get_gpu_stats dev cs).1.avg_core_clock_mhz =
      rollingAvg (pushSample cs.clockSamples dev.coreClock) ∧
    (feedStats dev clocks ⟨0, []⟩).clockSamples =
      clocks.drop (clocks.length - 30) ∧
    rollingAvg [] = 0 ∧
    (∀ samples : List Nat, samples ≠ [] →
      rollingAvg samples = samples.sum / samples.length) ∧
    rollingAvg (feedStats dev (List.replicate 35 100) ⟨0, []⟩).clockSamples
      = 100 ∧
    rollingAvg
      (feedStats dev (List.replicate 29 0 ++ [300]) ⟨0, []⟩).clockSamples
      = 10 := by
  have hfeed : ∀ l : List Nat,
      (feedStats dev l ⟨0, []⟩).clockSamples = l.foldl pushSample [] :=
    fun l => feedStats_clockSamples dev l ⟨0, []⟩
  refine ⟨rfl, ?_, rfl, ?_, ?_, ?_⟩
  · rw [hfeed clocks, foldl_pushSample_eq_drop clocks [] (by simp)]
    simp
  · intro samples hne
    simp [rollingAvg, hne]
  · rw [hfeed]
    decide
  · rw [hfeed]
    decide

/-- Witness for C9 at a concrete stream: 35 samples of 100 report a
rolling average of 100. -/
theorem get_gpu_stats_rolling_average_witness :
    rollingAvg
      (feedStats devCool (List.replicate 35 100) ⟨0, []⟩).clockSamples
      = 100 :=
  (get_gpu_stats_rolling_average devCool (List.replicate 35 100)
    ⟨0, []⟩).2.2.2.2.1

/-- Witness for C4: with the marker present at startup the result is the
crash-recovery skip and the marker ends cleared. -/
theorem applyBootProfile_crash_safety_witness :
    applyBootProfile true (some "boot") true false =
      (BootApplyResult.skippedCrashRecovery, [FlagEvent.clearFlag]) ∧
    markerAfter true (applyBootProfile true (some "boot") true false).2 =
      false := by
  have h := applyBootProfile_crash_safety true (some "boot") true false
  exact ⟨h.1 rfl, h.2.2.2⟩

/-! ## C6: fan-curve interpolation -/

/-- A chain of strictly increasing temperatures is pairwise increasing. -/
theorem chainLt_pairwise (pts : List (Int × Int))
    (h : List.Chain' (fun a b : Int × Int => a.1 < b.1) pts) :
    List.Pairwise (fun a b : Int × Int => a.1 < b.1) pts := by
  haveI : IsTrans (Int × Int) (fun a b : Int × Int => a.1 < b.1) :=
    ⟨fun _ _ _ h1 h2 => lt_trans h1 h2⟩
  exact List.chain'_iff_pairwise.mp h

/-- Every member of a sorted curve sits at or below its last point. -/
theorem le_getLast_of_mem :
    ∀ (pts : List (Int × Int)) (hne : pts ≠ []),
      List.Chain' (fun a b : Int × Int => a.1 < b.1) pts →
      ∀ m ∈ pts, m.1 ≤ (pts.getLast hne).1 := by
  intro pts
  induction pts with
  | nil => intro h; exact absurd rfl h
  | cons a tail ih =>
      intro hne hch m hm
      cases tail with
      | nil =>
          rcases List.mem_cons.mp hm with rfl | hm2
          · exact le_of_eq rfl
          · simp at hm2
      | cons b rest =>
          rw [List.getLast_cons (List.cons_ne_nil b rest)]
          rcases List.mem_cons.mp hm with rfl | hm2
          · have hab := (List.chain'_cons.mp hch).1
            have hb := ih (List.cons_ne_nil b rest) hch.tail b (by simp)
            omega
          · exact ih (List.cons_ne_nil b rest) hch.tail m hm2

/-- Interpolating at the left control point gives its percent. -/
theorem lerp_self_left (a b : Int × Int) : lerp a b (a.1) = (a.2 : Rat) := by
  simp [lerp]

/-- Interpolating at the right control point gives its percent. -/
theorem lerp_self_right (a b : Int × Int) (h : a.1 < b.1) :
    lerp a b (b.1) = (b.2 : Rat) := by
  have hd : ((b.1 : Rat) - (a.1 : Rat)) ≠ 0 := by
    have hlt : (a.1 : Rat) < (b.1 : Rat) := by exact_mod_cast h
    intro heq
    nlinarith
  simp only [lerp]
  field_simp

/-- On a sorted curve the scan loop lands on the bracketing pair: whenever
the point list splits as `pre ++ p1 :: p2 :: post` with
`p1.1 ≤ temp ≤ p2.1`, the loop returns the linear interpolation between
`p1` and `p2` regardless of the accumulator. -/
theorem interpLoop_bracket (temp : Int) :
    ∀ (pre : List (Int × Int)) (p1 p2 : Int × Int)
      (post : List (Int × Int)) (acc : Rat),
      List.Chain' (fun a b : Int × Int => a.1 < b.1)
        (pre ++ p1 :: p2 :: post) →
      p1.1 ≤ temp → temp ≤ p2.1 →
      interpLoop temp (pre ++ p1 :: p2 :: post) acc = lerp p1 p2 temp := by
  intro pre
  induction pre with
  | nil =>
      intro p1 p2 post acc hch hle hge
      simp only [List.nil_append, interpLoop, if_pos (And.intro hle hge)]
  | cons a pre2 ih =>
      intro p1 p2 post acc hch hle hge
      cases pre2 with
      | nil =>
          simp only [List.cons_append, List.nil_append] at hch ⊢
          by_cases hbr : a.1 ≤ temp ∧ temp ≤ p1.1
          · have hteq : temp = p1.1 := le_antisymm hbr.2 hle
            have hab : a.1 < p1.1 := (List.chain'_cons.mp hch).1
            have hstep : interpLoop temp (a :: p1 :: p2 :: post) acc =
                lerp a p1 temp := by
              simp only [interpLoop, if_pos hbr]
            rw [hstep, hteq, lerp_self_right a p1 hab]
            exact (lerp_self_left p1 p2).symm
          · have hstep : interpLoop temp (a :: p1 :: p2 :: post) acc =
                interpLoop temp (p1 :: p2 :: post) acc := by
              simp only [interpLoop, if_neg hbr]
            rw [hstep]
            simp only [interpLoop, if_pos (And.intro hle hge)]
      | cons b pre3 =>
          simp only [List.cons_append] at hch ⊢
          by_cases hbr : a.1 ≤ temp ∧ temp ≤ b.1
          · exfalso
            have hpw := chainLt_pairwise _ hch
            have hpw2 := (List.pairwise_cons.mp hpw).2
            have hbp : b.1 < p1.1 :=
              (List.pairwise_cons.mp hpw2).1 p1 (by simp)
            have h1 := hbr.2
            omega
          · have hstep : interpLoop temp
                (a :: b :: (pre3 ++ p1 :: p2 :: post)) acc =
                interpLoop temp (b :: (pre3 ++ p1 :: p2 :: post)) acc := by
              simp only [interpLoop, if_neg hbr]
            rw [hstep]
            exact ih p1 p2 post acc hch.tail hle hge

/-- The last element of a cons-over-append is the last of the suffix. -/
theorem getLast_cons_append (a : Int × Int) (l l2 : List (Int × Int))
    (h : l2 ≠ []) (hh : a :: (l ++ l2) ≠ []) :
    (a :: (l ++ l2)).getLast hh = l2.getLast h :=
  List.getLast_append' (a :: l) l2 h

/-- On a sorted curve, a temperature bracketed by the adjacent pair
`p1, p2` interpolates to exactly `lerp p1 p2 temp`, through all three
branches of the interpolation step. -/
theorem interpolate_bracket (temp : Int) (pre : List (Int × Int))
    (p1 p2 : Int × Int) (post : List (Int × Int))
    (hch : List.Chain' (fun a b : Int × Int => a.1 < b.1)
      (pre ++ p1 :: p2 :: post))
    (hle : p1.1 ≤ temp) (hge : temp ≤ p2.1) :
    interpolate (pre ++ p1 :: p2 :: post) temp = lerp p1 p2 temp := by
  cases pre with
  | nil =>
      simp only [List.nil_append] at hch ⊢
      by_cases h0 : temp ≤ p1.1
      · have hteq : temp = p1.1 := le_antisymm h0 hle
        simp only [interpolate, if_pos h0]
        rw [hteq, lerp_self_left p1 p2]
      · simp only [interpolate, if_neg h0]
        by_cases hlt : temp ≥ ((p1 :: p2 :: post).getLast
            (List.cons_ne_nil p1 (p2 :: post))).1
        · rw [if_pos hlt]
          cases post with
          | nil =>
              have hteq : temp = p2.1 := le_antisymm hge hlt
              have h12 : p1.1 < p2.1 := (List.chain'_cons.mp hch).1
              rw [hteq, lerp_self_right p1 p2 h12]
              rfl
          | cons q post2 =>
              exfalso
              have h2q : p2.1 < q.1 := (List.chain'_cons.mp hch.tail).1
              have hql : q.1 ≤ ((p1 :: p2 :: q :: post2).getLast
                  (List.cons_ne_nil p1 (p2 :: q :: post2))).1 :=
                le_getLast_of_mem _ _ hch q (by simp)
              omega
        · rw [if_neg hlt]
          exact interpLoop_bracket temp [] p1 p2 post (p1.2 : Rat)
            hch hle hge
  | cons a pre2 =>
      rw [List.cons_append] at hch ⊢
      have hpw := chainLt_pairwise _ hch
      have hap : a.1 < p1.1 :=
        (List.pairwise_cons.mp hpw).1 p1 (by simp)
      have h0 : ¬ temp ≤ a.1 := by omega
      simp only [interpolate, if_neg h0]
      by_cases hlt : temp ≥ ((a :: (pre2 ++ p1 :: p2 :: post)).getLast
          (List.cons_ne_nil a (pre2 ++ p1 :: p2 :: post))).1
      · rw [if_pos hlt]
        rw [getLast_cons_append a pre2 (p1 :: p2 :: post)
          (List.cons_ne_nil p1 (p2 :: post))
          (List.cons_ne_nil a (pre2 ++ p1 :: p2 :: post))] at hlt ⊢
        cases post with
        | nil =>
            have hlast : (p1 :: p2 :: ([] : List (Int × Int))).getLast
                (List.cons_ne_nil p1 (p2 :: [])) = p2 := rfl
            rw [hlast] at hlt ⊢
            have hteq : temp = p2.1 := le_antisymm hge hlt
            have h12 : p1.1 < p2.1 := by
              have hsuf : List.Chain' (fun x y : Int × Int => x.1 < y.1)
                  (p1 :: p2 :: []) := hch.tail.right_of_append
              exact (List.chain'_cons.mp hsuf).1
            rw [hteq, lerp_self_right p1 p2 h12]
        | cons q post2 =>
            exfalso
            have hsuf : List.Chain' (fun x y : Int × Int => x.1 < y.1)
                (p1 :: p2 :: q :: post2) := hch.tail.right_of_append
            have h2q : p2.1 < q.1 := (List.chain'_cons.mp hsuf.tail).1
            have hql : q.1 ≤ ((p1 :: p2 :: q :: post2).getLast
                (List.cons_ne_nil p1 (p2 :: q :: post2))).1 :=
              le_getLast_of_mem _ _ hsuf q (by simp)
            omega
      · rw [if_neg hlt]
        exact interpLoop_bracket temp (a :: pre2) p1 p2 post (a.2 : Rat)
          hch hle hge

/-- C6.  On every non-empty, strictly temperature-sorted curve: a
temperature at or below the lowest point takes that point's percent, one
at or above the highest takes that point's percent, and one bracketed by
an adjacent pair takes `p1 + (p2 - p1) * (temp - t1) / (t2 - t1)`; and on
the spec's curve `(30, 30), (70, 65), (90, 100)` the applied integer
values are `interpolate 50 = 47` (after the Python `int` truncation the
code applies), `interpolate 20 = 30` and `interpolate 95 = 100`. -/
theorem interpolate_piecewise (pts : List (Int × Int)) (temp : Int)
    (hne : pts ≠ [])
    (hsorted : List.Chain' (fun a b : Int × Int => a.1 < b.1) pts) :
    (temp ≤ (pts.head hne).1 →
      interpolate pts temp = ((pts.head hne).2 : Rat)) ∧
    ((pts.getLast hne).1 ≤ temp →
      interpolate pts temp = ((pts.getLast hne).2 : Rat)) ∧
    (∀ (pre post : List (Int × Int)) (p1 p2 : Int × Int),
      pts = pre ++ p1 :: p2 :: post → p1.1 ≤ temp → temp ≤ p2.1 →
      interpolate pts temp = lerp p1 p2 temp) ∧
    pyTrunc (interpolate exampleCurve 50) = 47 ∧
    interpolate exampleCurve 20 = 30 ∧
    interpolate exampleCurve 95 = 100 := by
  refine ⟨?_, ?_, ?_, ?_, ?_, ?_⟩
  · intro h
    cases pts with
    | nil => exact absurd rfl hne
    | cons p0 rest =>
        simp only [List.head_cons] at h ⊢
        simp only [interpolate, if_pos h]
  · intro hlast
    cases pts with
    | nil => exact absurd rfl hne
    | cons p0 rest =>
        by_cases h0 : temp ≤ p0.1
        · cases rest with
          | nil =>
              simp only [interpolate, if_pos h0]
              rfl
          | cons b rest2 =>
              exfalso
              have hab : p0.1 < b.1 := (List.chain'_cons.mp hsorted).1
              have hbl : b.1 ≤ ((p0 :: b :: rest2).getLast hne).1 :=
                le_getLast_of_mem _ hne hsorted b (by simp)
              omega
        · simp only [interpolate, if_neg h0]
          rw [if_pos hlast]
  · intro pre post p1 p2 heq hle hge
    subst heq
    exact interpolate_bracket temp pre p1 p2 post hsorted hle hge
  · norm_num [interpolate, interpLoop, lerp, exampleCurve, pyTrunc,
      List.getLast]
  · norm_num [interpolate, interpLoop, lerp, exampleCurve, List.getLast]
  · norm_num [interpolate, interpLoop, lerp, exampleCurve, List.getLast]

/-- Witness for C6: on the spec's concrete curve, 50 degrees is bracketed
by `(30, 30)` and `(70, 65)` and interpolates to their lerp, which the
code's `int` truncation turns into 47. -/
theorem interpolate_piecewise_witness :
    interpolate exampleCurve 50 = lerp (30, 30) (70, 65) 50 ∧
    pyTrunc (interpolate exampleCurve 50) = 47 := by
  have h := interpolate_piecewise exampleCurve 50 (by simp [exampleCurve])
    (by simp [exampleCurve])
  exact ⟨h.2.2.1 [] [(90, 100)] (30, 30) (70, 65) rfl (by norm_num)
    (by norm_num), h.2.2.2.1⟩

/-! ## C8: fan-curve hysteresis -/

/-- C8.  In a loop iteration on a non-empty curve with a previous curve
temperature `L` and a previously computed target `T` on record: when
`|temp - L| < hysteresis` the previous target is reused - the state keeps
`L` and `T` untouched and only the commanded speed moves (ramp-limited
toward `T`); when the reading moved at least the threshold, the target is
recomputed by interpolation (floored at the configured minimum) and
`last_curve_temp` is updated to the new reading.  Concretely, with
threshold 3 and `last_curve_temp = 60`, a reading of 61 reuses the
previous target and keeps `last_curve_temp = 60`, while a reading of 64
recomputes (on the example curve, to 59) and updates `last_curve_temp`. -/
theorem updateFanFromCurve_hysteresis (minFan hysteresis rampStep : Int)
    (pts : List (Int × Int)) (temp L T : Int) (st : DaemonState)
    (hne : pts ≠ [])
    (hL : st.lastCurveTemp = some L)
    (hT : st.lastTargetSpeed = some T) :
    (|temp - L| < hysteresis →
      updateFanFromCurve minFan hysteresis rampStep pts temp st =
        ⟨st.lastCurveTemp, st.lastTargetSpeed,
         some (applyRampLimit st.commandedSpeed T rampStep)⟩) ∧
    (¬ |temp - L| < hysteresis →
      updateFanFromCurve minFan hysteresis rampStep pts temp st =
        ⟨some temp, some (max minFan (pyTrunc (interpolate pts temp))),
         some (applyRampLimit st.commandedSpeed
           (max minFan (pyTrunc (interpolate pts temp))) rampStep)⟩) ∧
    (updateFanFromCurve 30 3 5 exampleCurve 61
        ⟨some 60, some 50, some 50⟩).lastTargetSpeed = some 50 ∧
    (updateFanFromCurve 30 3 5 exampleCurve 61
        ⟨some 60, some 50, some 50⟩).lastCurveTemp = some 60 ∧
    (updateFanFromCurve 30 3 5 exampleCurve 64
        ⟨some 60, some 50, some 50⟩).lastCurveTemp = some 64 ∧
    (updateFanFromCurve 30 3 5 exampleCurve 64
        ⟨some 60, some 50, some 50⟩).lastTargetSpeed = some 59 := by
  have hie : pts.isEmpty = false := by
    cases pts with
    | nil => exact absurd rfl hne
    | cons a l => rfl
  refine ⟨?_, ?_, ?_, ?_, ?_, ?_⟩
  · intro hsup
    simp only [updateFanFromCurve, hie, Bool.false_eq_true, if_false,
      hL, hT, decide_eq_true_eq, if_pos hsup, Option.getD_some]
  · intro hsup
    simp only [updateFanFromCurve, hie, Bool.false_eq_true, if_false,
      hL, hT, decide_eq_true_eq, if_neg hsup]
  · decide
  · decide
  · norm_num [updateFanFromCurve, applyRampLimit, interpolate, interpLoop,
      lerp, exampleCurve, pyTrunc, List.getLast]
  · norm_num [updateFanFromCurve, applyRampLimit, interpolate, interpLoop,
      lerp, exampleCurve, pyTrunc, List.getLast]

/-- Witness for C8: with threshold 3, previous curve temperature 60 and
previous target 50, a reading of 61 leaves the whole record unchanged -
the target is reused and `last_curve_temp` stays 60. -/
theorem updateFanFromCurve_hysteresis_witness :
    updateFanFromCurve 30 3 5 exampleCurve 61 ⟨some 60, some 50, some 50⟩ =
      ⟨some 60, some 50, some 50⟩ := by
  have h := updateFanFromCurve_hysteresis 30 3 5 exampleCurve 61 60 50
    ⟨some 60, some 50, some 50⟩ (by simp [exampleCurve]) rfl rfl
  rw [h.1 (by decide)]
  decide

/-! ## C10: profile save/load round trip -/

/-- Serialising a fan curve, parsing the stringified keys back and
serialising again is the same as serialising once: `json.dump` stringifies
int keys, and stringifying a string key is the identity. -/
theorem fanCurve_round_trip (c? : Option (List (CurveKey × Int))) :
    Option.map (List.map fun kv : CurveKey × Int => (kv.1.keyString, kv.2))
      (Option.map
        (List.map fun kv : String × Int => (CurveKey.ofStr kv.1, kv.2))
        (Option.map
          (List.map fun kv : CurveKey × Int => (kv.1.keyString, kv.2)) c?)) =
    Option.map (List.map fun kv : CurveKey × Int => (kv.1.keyString, kv.2))
      c? := by
  cases c? with
  | none => rfl
  | some c =>
      simp only [Option.map_some', List.map_map]
      rfl

/-- C10.  Saving stamps `created_at` only when absent and always refreshes
`updated_at`; the saved record is found again under the profile's
(sanitised) name; and the store round-trips: saving the loaded profile
again produces a record equal to the first on every field - name, power
limit, core/memory offsets, max clock lock, fan mode, fan speed, fan
curve, apply-on-boot flag, description - while `created_at` is preserved
and `updated_at` advances monotonically with the clock. -/
theorem save_profile_round_trip (store : ProfileStore) (p : Profile)
    (t1 t2 : Nat) (ht : t1 ≤ t2) (h1 : 0 < t1) :
    ((save_profile p t1).2.created_at =
      if p.created_at = 0 then t1 else p.created_at) ∧
    (save_profile p t1).2.updated_at = t1 ∧
    storeLoad (storeSave store p t1) p.name =
      some (Profile.from_dict (save_profile p t1).2) ∧
    ((save_profile (Profile.from_dict (save_profile p t1).2) t2).2.name =
        (save_profile p t1).2.name ∧
      (save_profile (Profile.from_dict
          (save_profile p t1).2) t2).2.power_limit_watts =
        (save_profile p t1).2.power_limit_watts ∧
      (save_profile (Profile.from_dict
          (save_profile p t1).2) t2).2.core_clock_offset_mhz =
        (save_profile p t1).2.core_clock_offset_mhz ∧
      (save_profile (Profile.from_dict
          (save_profile p t1).2) t2).2.memory_clock_offset_mhz =
        (save_profile p t1).2.memory_clock_offset_mhz ∧
      (save_profile (Profile.from_dict
          (save_profile p t1).2) t2).2.max_clock_mhz =
        (save_profile p t1).2.max_clock_mhz ∧
      (save_profile (Profile.from_dict
          (save_profile p t1).2) t2).2.fan_mode =
        (save_profile p t1).2.fan_mode ∧
      (save_profile (Profile.from_dict
          (save_profile p t1).2) t2).2.fan_speed_percent =
        (save_profile p t1).2.fan_speed_percent ∧
      (save_profile (Profile.from_dict
          (save_profile p t1).2) t2).2.fan_curve =
        (save_profile p t1).2.fan_curve ∧
      (save_profile (Profile.from_dict
          (save_profile p t1).2) t2).2.apply_on_boot =
        (save_profile p t1).2.apply_on_boot ∧
      (save_profile (Profile.from_dict
          (save_profile p t1).2) t2).2.description =
        (save_profile p t1).2.description) ∧
    (save_profile (Profile.from_dict
        (save_profile p t1).2) t2).2.created_at =
      (save_profile p t1).2.created_at ∧
    (save_profile (Profile.from_dict
        (save_profile p t1).2) t2).2.updated_at = t2 ∧
    (save_profile p t1).2.updated_at ≤
      (save_profile (Profile.from_dict
        (save_profile p t1).2) t2).2.updated_at ∧
    (save_profile p t1).2.created_at ≤
      (save_profile (Profile.from_dict
        (save_profile p t1).2) t2).2.created_at := by
  have hc1 : (save_profile p t1).2.created_at =
      if p.created_at = 0 then t1 else p.created_at := rfl
  have hcpos : 0 < (save_profile p t1).2.created_at := by
    rw [hc1]
    split_ifs with h
    · exact h1
    · omega
  have hc2 : (save_profile (Profile.from_dict
      (save_profile p t1).2) t2).2.created_at =
      (save_profile p t1).2.created_at := by
    simp only [save_profile, Profile.from_dict, Profile.to_dict]
    simp only [save_profile, Profile.from_dict, Profile.to_dict] at hcpos
    rw [if_neg (by omega)]
  refine ⟨hc1, rfl, ?_,
    ⟨rfl, rfl, rfl, rfl, rfl, rfl, rfl, fanCurve_round_trip p.fan_curve,
     rfl, rfl⟩,
    hc2, rfl, by simpa using ht, by rw [hc2]⟩
  simp only [storeLoad, storeSave, List.find?, beq_self_eq_true,
    Option.map_some']

/-- A concrete profile with no timestamps yet, used to witness C10. -/
def sampleProfile : Profile :=
  { name := "My Profile", power_limit_watts := some 300
    core_clock_offset_mhz := some 100, memory_clock_offset_mhz := some 500
    max_clock_mhz := none, fan_mode := "manual"
    fan_speed_percent := some 60
    fan_curve := some [(CurveKey.ofInt 30, 30), (CurveKey.ofInt 70, 65)]
    apply_on_boot := true, created_at := 0, updated_at := 0
    description := "test profile" }

/-- Witness for C10 at a concrete profile and clock values 5 then 9:
the first save stamps `created_at := 5`, the re-save after a load keeps
the serialised fan curve and name identical and moves `updated_at` to 9
while `created_at` stays 5. -/
theorem save_profile_round_trip_witness :
    (save_profile sampleProfile 5).2.created_at = 5 ∧
    (save_profile (Profile.from_dict
        (save_profile sampleProfile 5).2) 9).2.fan_curve =
      (save_profile sampleProfile 5).2.fan_curve ∧
    (save_profile (Profile.from_dict
        (save_profile sampleProfile 5).2) 9).2.created_at = 5 ∧
    (save_profile (Profile.from_dict
        (save_profile sampleProfile 5).2) 9).2.updated_at = 9 := by
  have h := save_profile_round_trip [] sampleProfile 5 9
    (by omega) (by omega)
  refine ⟨?_, h.2.2.2.1.2.2.2.2.2.2.2.1, ?_, h.2.2.2.2.2.1⟩
  · rw [h.1]
    rfl
  · rw [h.2.2.2.2.1, h.1]
    rfl

end Nvoc
